import Mathlib

/-!
Verification of the MyFridge inventory tracker (src/streamlit_app.py).

The program is a single-page CRUD front end over a remote "items" table held
by an external hosted data service.  The four data-access wrappers
(fetch_items, insert_item, update_item, delete_item), the connection
initializer (init_connection), the widget constraints and the interaction
handlers are embedded below directly from the source.  The external table
store itself is not part of the repository; its semantics (select-all
ordered by id, insert-one with server-assigned id, update-by-id,
delete-by-id) are modelled from the spec's external-interface contract.
-/

set_option autoImplicit false
set_option linter.unusedVariables false

namespace MyFridge

/-- One inventory row of the remote "items" table: id (server-assigned
integer), name, quantity (integer), shelf (text) and created_at
(the ISO timestamp string the client sends at insertion time). -/
structure Item where
  id : Nat
  name : String
  quantity : Int
  shelf : String
  created_at : String
  deriving Repr, DecidableEq

/-- Modelled from the spec: the state of the external data service's items
table.  The store owns id generation ("assigned by the external store,
unique, immutable once created"); nextId is the next id it will assign. -/
structure Store where
  table : List Item
  nextId : Nat
  deriving Repr, DecidableEq

/-- Ordering of rows by ascending id, used by the select-all query
(order("id") in the source). -/
def idLe (a b : Item) : Prop := a.id ≤ b.id

instance : DecidableRel idLe := fun a b => Nat.decLe a.id b.id

instance : IsTotal Item idLe := ⟨fun a b => Nat.le_total a.id b.id⟩

instance : IsTrans Item idLe := ⟨fun _ _ _ h1 h2 => Nat.le_trans h1 h2⟩

/-- Modelled from the spec: the service's select-all-ordered operation
returns every row of the table, ordered by id ascending. -/
def selectAllOrdered (s : Store) : List Item :=
  List.insertionSort idLe s.table

/-- Modelled from the spec: the service's insert-one operation appends one
new row, assigning it the next server id; the client-supplied payload
carries name, quantity, shelf and created_at but no id. -/
def insertOne (s : Store) (name : String) (quantity : Int) (shelf : String)
    (created_at : String) : Store :=
  { table := s.table ++
      [{ id := s.nextId, name := name, quantity := quantity,
         shelf := shelf, created_at := created_at }],
    nextId := s.nextId + 1 }

/-- Effect of the update payload {name, quantity, shelf} on a single row:
a row whose id matches the filter has those three columns overwritten
(id and created_at are not in the payload, hence untouched); any other
row is left alone. -/
def updateRow (i : Nat) (name : String) (quantity : Int) (shelf : String)
    (r : Item) : Item :=
  if r.id = i then { r with name := name, quantity := quantity, shelf := shelf }
  else r

/-- Modelled from the spec: the service's update-by-id operation sets the
submitted columns on every row matched by the eq("id", id) filter; with no
matching row it affects zero rows silently. -/
def updateById (s : Store) (i : Nat) (name : String) (quantity : Int)
    (shelf : String) : Store :=
  { s with table := s.table.map (updateRow i name quantity shelf) }

/-- Modelled from the spec: the service's delete-by-id operation removes
the rows matched by the eq("id", id) filter. -/
def deleteById (s : Store) (i : Nat) : Store :=
  { s with table := s.table.filter (fun r => r.id != i) }

/-- fetch_items (source lines 73-75): select("*").order("id").execute()
on the items table, returning all rows ordered by id ascending. -/
def fetch_items (s : Store) : List Item :=
  selectAllOrdered s

/-- insert_item (source lines 78-86): builds the payload
{name, quantity, shelf, created_at := datetime.now().isoformat()} -- note
no id field -- and inserts it.  The now argument is the ISO timestamp of
the moment of the call. -/
def insert_item (s : Store) (now : String) (name : String) (quantity : Int)
    (shelf : String) : Store :=
  insertOne s name quantity shelf now

/-- update_item (source lines 89-96): builds the payload
{name, quantity, shelf} -- neither id nor created_at -- and applies
update(data).eq("id", id). -/
def update_item (s : Store) (i : Nat) (name : String) (quantity : Int)
    (shelf : String) : Store :=
  updateById s i name quantity shelf

/-- delete_item (source lines 99-101): delete().eq("id", id). -/
def delete_item (s : Store) (i : Nat) : Store :=
  deleteById s i

/-- Python truthiness of an os.getenv result: None (variable absent) and
the empty string are falsy, matching the source's "if not url or not key". -/
def isFalsyEnv : Option String → Bool
  | none => true
  | some s => s.isEmpty

/-- The connection handle returned by the external client constructor. -/
structure Client where
  url : String
  key : String
  deriving Repr, DecidableEq

/-- Modelled from the spec: create_client is the external service-client
constructor; it is only reachable with both configuration values present. -/
def create_client (url key : String) : Client :=
  { url := url, key := key }

/-- The operator-facing message of the missing-configuration error path
(source line 57). -/
def credsErrorMsg : String :=
  "Supabase credentials not found. Please set SUPABASE_URL and SUPABASE_KEY in your .env file."

/-- init_connection (source lines 51-60): reads SUPABASE_URL and
SUPABASE_KEY from the environment; if either is falsy it shows the error
and stops the script (st.stop halts startup, modelled as Except.error);
otherwise it returns the client handle.  The two arguments are the
os.getenv results for the two variables (none when absent). -/
def init_connection (envUrl envKey : Option String) : Except String Client :=
  if isFalsyEnv envUrl || isFalsyEnv envKey then
    Except.error credsErrorMsg
  else
    Except.ok (create_client (envUrl.getD "") (envKey.getD ""))

/-- shelf_options (source line 123): the closed list offered by both shelf
selectors. -/
def shelf_options : List String :=
  ["Top", "Middle", "Bottom", "Door", "Freezer"]

/-- Modelled from the spec: st.number_input with min_value=1 enforces the
minimum at the widget level, so the value it yields is never below 1
whatever the user supplies. -/
def number_input_min1 (v : Int) : Int :=
  max 1 v

/-- Modelled from the spec: st.selectbox over a closed option list yields
the option at the chosen index; the user cannot submit a value outside
the list. -/
def selectbox (options : List String) (choice : Fin options.length) : String :=
  options.get choice

/-- The widget state of the add form (source lines 110, 115, 124, 129). -/
structure AddForm where
  add_button : Bool
  item_name : String
  quantityRaw : Int
  shelfChoice : Fin shelf_options.length

/-- Result of one run of the add-handling part of the script: the store
after the interaction, whether the success notice was shown, and the item
list rendered by the same interaction. -/
structure AddOutcome where
  store : Store
  success_notice : Bool
  rendered : List Item
  deriving Repr, DecidableEq

/-- The add handler and subsequent display (source lines 132-139):
"if add_button and item_name: insert_item(...); st.success(...)" followed
unconditionally by "items_df = fetch_items()". -/
def runAddInteraction (s : Store) (now : String) (f : AddForm) : AddOutcome :=
  let q := number_input_min1 f.quantityRaw
  let sh := selectbox shelf_options f.shelfChoice
  let doInsert := f.add_button && !f.item_name.isEmpty
  let s1 := if doInsert then insert_item s now f.item_name q sh else s
  { store := s1, success_notice := doInsert, rendered := fetch_items s1 }

/-- The main item display (source lines 141-161): a grid when the fetched
frame is non-empty, the informational no-items state otherwise. -/
inductive MainView where
  | grid : List Item → MainView
  | noItemsInfo : MainView
  deriving Repr, DecidableEq

/-- renderMain (source lines 141-161): "if not items_df.empty:
st.dataframe(...) else: st.info(...)". -/
def renderMain (items : List Item) : MainView :=
  if items.isEmpty then MainView.noItemsInfo else MainView.grid items

/-- edit_shelf default index (source line 187): shelf_options.index(shelf)
when the stored shelf is in the list, index 0 otherwise. -/
def edit_shelf_index (stored : String) : Nat :=
  if stored ∈ shelf_options then shelf_options.indexOf stored else 0

/-- The value the edit form's shelf selector shows (and submits when the
user leaves it untouched): the option at the default index. -/
def edit_shelf_default (stored : String) : String :=
  shelf_options.getD (edit_shelf_index stored) ""

/-- The raw response object of a service call; data is the affected-rows
payload. -/
structure ApiResponse where
  data : List Item
  deriving Repr, DecidableEq

/-- The body of fetch_items as run against an execute() call that may
raise: "response = ...execute(); return pd.DataFrame(response.data)".
There is no try/except, retry or fallback in the function. -/
def fetch_items_run (execute : Except String ApiResponse) :
    Except String (List Item) := do
  let response ← execute
  pure response.data

/-- The body of insert_item against a possibly-raising execute():
"response = ...insert(data).execute(); return response", with no handler. -/
def insert_item_run (execute : Except String ApiResponse) :
    Except String ApiResponse := do
  let response ← execute
  pure response

/-- The body of update_item against a possibly-raising execute():
"response = ...update(data).eq(...).execute(); return response", with no
handler. -/
def update_item_run (execute : Except String ApiResponse) :
    Except String ApiResponse := do
  let response ← execute
  pure response

/-- The body of delete_item against a possibly-raising execute():
"response = ...delete().eq(...).execute(); return response", with no
handler. -/
def delete_item_run (execute : Except String ApiResponse) :
    Except String ApiResponse := do
  let response ← execute
  pure response

/-! Sample data used by the witness theorems. -/

/-- A sample stored row with an in-set shelf. -/
def sampleRow : Item :=
  { id := 1, name := "Eggs", quantity := 6, shelf := "Middle",
    created_at := "2024-01-01T00:00:00" }

/-- A sample store holding one row; the store has already assigned id 1. -/
def sampleStore : Store :=
  { table := [sampleRow], nextId := 2 }

/-- A store with an empty items table. -/
def emptyStore : Store :=
  { table := [], nextId := 1 }

/-- A sample add-form state: add clicked, non-empty name, quantity 2,
shelf choice index 3 ("Door"). -/
def sampleAddForm : AddForm :=
  { add_button := true, item_name := "Milk", quantityRaw := 2,
    shelfChoice := ⟨3, by decide⟩ }

/-- The row the sample add interaction inserts into the empty store. -/
def sampleInserted : Item :=
  { id := 1, name := "Milk", quantity := 2, shelf := "Door",
    created_at := "t1" }

/-- A sample row whose stored shelf value is outside the fixed set. -/
def staleRow : Item :=
  { id := 7, name := "Jam", quantity := 1, shelf := "Veggie",
    created_at := "2024-01-01T00:00:00" }

/-- A store holding the out-of-set row. -/
def staleStore : Store :=
  { table := [staleRow], nextId := 8 }

/-- C1: for every valid input triple (name, quantity, shelf), insert_item
creates exactly one new remote row whose name, quantity and shelf equal the
inputs and whose created_at equals the time of the call; the id is the one
the external store assigns (insert_item takes no id input), and it exceeds
every previously seen id. -/
theorem insert_item_creates_one_row (s : Store) (now name : String)
    (quantity : Int) (shelf : String)
    (hname : name ≠ "") (hq : 1 ≤ quantity) (hsh : shelf ∈ shelf_options) :
    ∃ row : Item,
      (insert_item s now name quantity shelf).table = s.table ++ [row] ∧
      row.name = name ∧ row.quantity = quantity ∧ row.shelf = shelf ∧
      row.created_at = now ∧
      row.id = s.nextId ∧
      ((∀ r ∈ s.table, r.id < s.nextId) → ∀ r ∈ s.table, r.id < row.id) :=
  ⟨{ id := s.nextId, name := name, quantity := quantity, shelf := shelf,
     created_at := now },
   rfl, rfl, rfl, rfl, rfl, rfl, fun h r hr => h r hr⟩

/-- Witness for C1 at a concrete valid triple. -/
theorem insert_item_creates_one_row_witness :
    "Milk" ≠ "" ∧ (1 : Int) ≤ 2 ∧ "Door" ∈ shelf_options ∧
    ∃ row : Item,
      (insert_item sampleStore "2024-01-02T00:00:00" "Milk" 2 "Door").table =
        sampleStore.table ++ [row] ∧
      row.name = "Milk" ∧ row.quantity = 2 ∧ row.shelf = "Door" ∧
      row.created_at = "2024-01-02T00:00:00" ∧
      row.id = sampleStore.nextId ∧
      ((∀ r ∈ sampleStore.table, r.id < sampleStore.nextId) →
        ∀ r ∈ sampleStore.table, r.id < row.id) :=
  ⟨by decide, by decide, by decide,
   insert_item_creates_one_row sampleStore "2024-01-02T00:00:00" "Milk" 2
     "Door" (by decide) (by decide) (by decide)⟩

/-- C3: fetch_items takes only the store, returns all rows of the items
table (a permutation of the table) ordered by id ascending; on an empty
table it returns the empty sequence and the UI then renders the
informational no-items state instead of the grid. -/
theorem fetch_items_ordered_and_empty_state (s : Store) :
    (fetch_items s).Perm s.table ∧
    List.Sorted idLe (fetch_items s) ∧
    (s.table = [] →
      fetch_items s = [] ∧
      renderMain (fetch_items s) = MainView.noItemsInfo) := by
  refine ⟨List.perm_insertionSort idLe s.table,
    List.sorted_insertionSort idLe s.table, ?_⟩
  intro h
  constructor
  · simp [fetch_items, selectAllOrdered, h]
  · simp [fetch_items, selectAllOrdered, h, renderMain]

/-- Witness for C3 on the empty store. -/
theorem fetch_items_empty_witness :
    emptyStore.table = [] ∧ fetch_items emptyStore = [] ∧
    renderMain (fetch_items emptyStore) = MainView.noItemsInfo :=
  ⟨rfl, (fetch_items_ordered_and_empty_state emptyStore).2.2 rfl⟩

/-- C4: if either configuration value is absent from the environment,
init_connection halts startup with the operator-facing error message and
never produces a client handle (create_client is unreachable). -/
theorem init_connection_halts_on_missing_config (envUrl envKey : Option String)
    (h : envUrl = none ∨ envKey = none) :
    init_connection envUrl envKey = Except.error credsErrorMsg ∧
    ∀ c : Client, init_connection envUrl envKey ≠ Except.ok c := by
  have hfals : (isFalsyEnv envUrl || isFalsyEnv envKey) = true := by
    rcases h with h | h <;> simp [h, isFalsyEnv]
  constructor
  · simp [init_connection, hfals]
  · intro c hc
    simp [init_connection, hfals] at hc

/-- Witness for C4 with the URL variable absent. -/
theorem init_connection_missing_config_witness :
    ((none : Option String) = none ∨ (some "key") = none) ∧
    init_connection none (some "key") = Except.error credsErrorMsg :=
  ⟨Or.inl rfl,
   (init_connection_halts_on_missing_config none (some "key") (Or.inl rfl)).1⟩

/-- C9: whenever the remote execute() call of any of the four data-access
wrappers raises a transport or service error, the wrapper body propagates
it unchanged to the caller: none of the four contains a retry, fallback or
handler. -/
theorem dal_errors_propagate (e : String) :
    fetch_items_run (Except.error e) = Except.error e ∧
    insert_item_run (Except.error e) = Except.error e ∧
    update_item_run (Except.error e) = Except.error e ∧
    delete_item_run (Except.error e) = Except.error e :=
  ⟨rfl, rfl, rfl, rfl⟩

/-- C2: update_item overwrites only name, quantity and shelf on the rows
whose id matches; the matching row keeps its id and created_at (they are
not in the update payload), and every row with a different id is unchanged;
no row is added or removed. -/
theorem update_item_overwrites_only_matching_fields (s : Store) (i : Nat)
    (name : String) (quantity : Int) (shelf : String) :
    (update_item s i name quantity shelf).table.length = s.table.length ∧
    (update_item s i name quantity shelf).nextId = s.nextId ∧
    ∀ (j : Nat) (r : Item), s.table[j]? = some r →
      (r.id = i →
        (update_item s i name quantity shelf).table[j]? =
          some { r with name := name, quantity := quantity, shelf := shelf }) ∧
      (r.id ≠ i →
        (update_item s i name quantity shelf).table[j]? = some r) := by
  refine ⟨by simp [update_item, updateById], rfl, ?_⟩
  intro j r hj
  constructor
  · intro hid
    simp [update_item, updateById, List.getElem?_map, hj, updateRow, hid]
  · intro hid
    simp [update_item, updateById, List.getElem?_map, hj, updateRow, hid]

/-- Witness for C2: updating the sample store's row 1 rewrites its three
fields in place and keeps id and created_at. -/
theorem update_item_overwrites_witness :
    sampleStore.table[0]? = some sampleRow ∧ sampleRow.id = 1 ∧
    (update_item sampleStore 1 "Eggs" 12 "Top").table[0]? =
      some { sampleRow with name := "Eggs", quantity := 12, shelf := "Top" } :=
  ⟨rfl, rfl,
   ((update_item_overwrites_only_matching_fields sampleStore 1 "Eggs" 12
       "Top").2.2 0 sampleRow rfl).1 rfl⟩

/-- Helper: removing the rows with a given id from a table whose ids are
distinct and contain that id shortens it by exactly one. -/
theorem length_filter_ne_id (i : Nat) :
    ∀ l : List Item, (l.map Item.id).Nodup → i ∈ l.map Item.id →
      (l.filter (fun r => r.id != i)).length + 1 = l.length := by
  intro l
  induction l with
  | nil => intro _ h; simp at h
  | cons a t ih =>
    intro hnd hmem
    simp only [List.map_cons, List.nodup_cons] at hnd
    by_cases hai : a.id = i
    · have htail : ∀ x ∈ t, (x.id != i) = true := by
        intro x hx
        have hxne : x.id ≠ i := by
          intro hxi
          exact hnd.1 (List.mem_map.mpr ⟨x, hx, by rw [hxi, hai]⟩)
        simpa using hxne
      simp [List.filter_cons, hai, List.filter_eq_self.mpr htail]
    · have hmem' : i ∈ t.map Item.id := by
        rcases List.mem_cons.mp hmem with h | h
        · exact absurd h.symm hai
        · exact h
      have := ih hnd.2 hmem'
      simp [List.filter_cons, hai]
      omega

/-- C5: for an existing id (ids are unique, owned by the store),
delete_item removes exactly the matching row: the count drops by exactly
one, a row survives exactly when it was present with a different id, and a
subsequent fetch_items no longer contains the deleted id. -/
theorem delete_item_removes_exactly_one (s : Store) (i : Nat)
    (hnd : (s.table.map Item.id).Nodup) (hmem : i ∈ s.table.map Item.id) :
    (delete_item s i).table.length + 1 = s.table.length ∧
    (∀ r : Item, r ∈ (delete_item s i).table ↔ r ∈ s.table ∧ r.id ≠ i) ∧
    i ∉ (fetch_items (delete_item s i)).map Item.id := by
  refine ⟨length_filter_ne_id i s.table hnd hmem, ?_, ?_⟩
  · intro r
    simp [delete_item, deleteById, List.mem_filter]
  · intro hcontra
    have hperm : ((fetch_items (delete_item s i)).map Item.id).Perm
        ((delete_item s i).table.map Item.id) :=
      (List.perm_insertionSort idLe (delete_item s i).table).map Item.id
    have hmem2 : i ∈ (delete_item s i).table.map Item.id :=
      hperm.mem_iff.mp hcontra
    simp [delete_item, deleteById, List.mem_map, List.mem_filter] at hmem2
    obtain ⟨a, ⟨_, hne⟩, hid⟩ := hmem2
    exact hne hid

/-- Witness for C5 on the sample store, whose single row has id 1. -/
theorem delete_item_removes_witness :
    (sampleStore.table.map Item.id).Nodup ∧
    1 ∈ sampleStore.table.map Item.id ∧
    (delete_item sampleStore 1).table.length + 1 = sampleStore.table.length :=
  ⟨by decide, by decide,
   (delete_item_removes_exactly_one sampleStore 1 (by decide) (by decide)).1⟩

/-- C6: whatever raw value the user supplies, the quantity widget yields a
value that is at least 1 and the shelf selector yields a member of the
fixed five-element list, on the add form and the edit form alike; hence
every row an add interaction passes to insert_item satisfies both
constraints. -/
theorem ui_submission_constraints (rawQ : Int) (c : Fin shelf_options.length)
    (s : Store) (now : String) (f : AddForm) :
    1 ≤ number_input_min1 rawQ ∧
    selectbox shelf_options c ∈ shelf_options ∧
    ∀ r ∈ (runAddInteraction s now f).store.table,
      r ∈ s.table ∨ (1 ≤ r.quantity ∧ r.shelf ∈ shelf_options) := by
  refine ⟨le_max_left 1 rawQ, List.get_mem shelf_options c.1 c.2, ?_⟩
  intro r hr
  by_cases hIns : (f.add_button && !f.item_name.isEmpty) = true
  · simp only [runAddInteraction, hIns, if_true, insert_item, insertOne,
      List.mem_append, List.mem_singleton] at hr
    rcases hr with hr | hr
    · exact Or.inl hr
    · refine Or.inr ?_
      subst hr
      exact ⟨le_max_left 1 f.quantityRaw,
        List.get_mem shelf_options f.shelfChoice.1 f.shelfChoice.2⟩
  · simp only [runAddInteraction, hIns, if_false, Bool.false_eq_true] at hr
    exact Or.inl hr

/-- Witness for C6 at concrete widget inputs (raw quantity 0 is clamped to
1; choice 3 yields "Door") and at the sample add interaction. -/
theorem ui_submission_constraints_witness :
    (1 : Int) ≤ number_input_min1 0 ∧
    selectbox shelf_options ⟨3, by decide⟩ ∈ shelf_options ∧
    (sampleInserted ∈ emptyStore.table ∨
      (1 ≤ sampleInserted.quantity ∧ sampleInserted.shelf ∈ shelf_options)) :=
  ⟨(ui_submission_constraints 0 ⟨3, by decide⟩ emptyStore "t1" sampleAddForm).1,
   (ui_submission_constraints 0 ⟨3, by decide⟩ emptyStore "t1" sampleAddForm).2.1,
   (ui_submission_constraints 0 ⟨3, by decide⟩ emptyStore "t1"
       sampleAddForm).2.2 sampleInserted (by decide)⟩

/-- C7: in one interaction, the insert happens exactly when the add button
was clicked with a non-empty name (then the success notice is shown); with
the button unclicked or the name empty nothing is inserted and no notice is
shown; the table is always re-fetched afterwards, so the freshly inserted
row appears in the list rendered by the same interaction. -/
theorem add_interaction_spec (s : Store) (now : String) (f : AddForm) :
    ((f.add_button && !f.item_name.isEmpty) = true →
      (runAddInteraction s now f).store =
        insert_item s now f.item_name (number_input_min1 f.quantityRaw)
          (selectbox shelf_options f.shelfChoice) ∧
      (runAddInteraction s now f).success_notice = true ∧
      ∃ r ∈ (runAddInteraction s now f).rendered,
        r.id = s.nextId ∧ r.name = f.item_name ∧
        r.quantity = number_input_min1 f.quantityRaw ∧
        r.shelf = selectbox shelf_options f.shelfChoice ∧
        r.created_at = now) ∧
    ((f.add_button && !f.item_name.isEmpty) = false →
      (runAddInteraction s now f).store = s ∧
      (runAddInteraction s now f).success_notice = false) ∧
    (runAddInteraction s now f).rendered =
      fetch_items (runAddInteraction s now f).store := by
  refine ⟨?_, ?_, rfl⟩
  · intro h
    refine ⟨by simp [runAddInteraction, h], by simp [runAddInteraction, h], ?_⟩
    have hmem : (⟨s.nextId, f.item_name, number_input_min1 f.quantityRaw,
        selectbox shelf_options f.shelfChoice, now⟩ : Item) ∈
        (runAddInteraction s now f).rendered := by
      have hperm : (runAddInteraction s now f).rendered.Perm
          (runAddInteraction s now f).store.table :=
        List.perm_insertionSort idLe (runAddInteraction s now f).store.table
      refine hperm.mem_iff.mpr ?_
      simp [runAddInteraction, h, insert_item, insertOne]
    exact ⟨_, hmem, rfl, rfl, rfl, rfl, rfl⟩
  · intro h
    simp [runAddInteraction, h]

/-- Witness for C7 at the sample add interaction on the empty store. -/
theorem add_interaction_witness :
    (sampleAddForm.add_button && !sampleAddForm.item_name.isEmpty) = true ∧
    (runAddInteraction emptyStore "t1" sampleAddForm).success_notice = true :=
  ⟨by decide,
   ((add_interaction_spec emptyStore "t1" sampleAddForm).1 (by decide)).2.1⟩

/-- C8: for an id not present in the items table, update_item affects zero
rows and completes silently: the store (table and id counter) is returned
unchanged, and the wrapper body raises nothing when the service call
succeeds. -/
theorem update_item_missing_id_noop (s : Store) (i : Nat) (name : String)
    (quantity : Int) (shelf : String)
    (h : i ∉ s.table.map Item.id) :
    update_item s i name quantity shelf = s ∧
    ∀ resp : ApiResponse, update_item_run (Except.ok resp) = Except.ok resp := by
  constructor
  · have hall : ∀ r ∈ s.table, r.id ≠ i := by
      intro r hr hri
      exact h (List.mem_map.mpr ⟨r, hr, hri⟩)
    have htab : ∀ l : List Item, (∀ r ∈ l, r.id ≠ i) →
        l.map (updateRow i name quantity shelf) = l := by
      intro l
      induction l with
      | nil => intro _; rfl
      | cons a t ih =>
        intro hl
        have ha : a.id ≠ i := hl a (List.mem_cons_self a t)
        simp [updateRow, ha, ih (fun r hr => hl r (List.mem_cons_of_mem a hr))]
    cases s with
    | mk table nextId =>
      simp only [update_item, updateById]
      simp [htab table (fun r hr => hall r hr)]
  · intro resp
    rfl

/-- Witness for C8: id 2 is absent from the sample store, and updating it
changes nothing. -/
theorem update_item_missing_id_witness :
    2 ∉ sampleStore.table.map Item.id ∧
    update_item sampleStore 2 "Ghost" 1 "Top" = sampleStore :=
  ⟨by decide,
   (update_item_missing_id_noop sampleStore 2 "Ghost" 1 "Top" (by decide)).1⟩

/-- C10: when the row selected for editing stores a shelf value outside the
fixed list, the edit form's shelf selector defaults to the first option
"Top"; pressing update then submits "Top", silently replacing the
out-of-set value (which "Top" never equals) on the matching row. -/
theorem edit_shelf_out_of_set_defaults_top (s : Store) (r : Item)
    (name : String) (quantity : Int)
    (hr : r ∈ s.table) (hout : r.shelf ∉ shelf_options) :
    edit_shelf_default r.shelf = "Top" ∧
    edit_shelf_default r.shelf ≠ r.shelf ∧
    { r with name := name, quantity := quantity, shelf := "Top" } ∈
      (update_item s r.id name quantity (edit_shelf_default r.shelf)).table := by
  have hdef : edit_shelf_default r.shelf = "Top" := by
    have h0 : edit_shelf_index r.shelf = 0 := by
      simp [edit_shelf_index, hout]
    simp only [edit_shelf_default, h0]
    rfl
  refine ⟨hdef, ?_, ?_⟩
  · rw [hdef]
    intro hTop
    exact hout (hTop ▸ (show "Top" ∈ shelf_options by decide))
  · rw [hdef]
    simp only [update_item, updateById]
    exact List.mem_map.mpr ⟨r, hr, by simp [updateRow]⟩

/-- Witness for C10 on the store whose row 7 has the out-of-set shelf
"Veggie". -/
theorem edit_shelf_out_of_set_witness :
    staleRow ∈ staleStore.table ∧ staleRow.shelf ∉ shelf_options ∧
    edit_shelf_default staleRow.shelf = "Top" :=
  ⟨by decide, by decide,
   (edit_shelf_out_of_set_defaults_top staleStore staleRow "Jam" 1
       (by decide) (by decide)).1⟩

end MyFridge
